import Mathlib

/-!
Shallow embedding of the `test-backend` HTTP troubleshooting tool
(Go sources: `backend.go` server half and client half, `config.go`),
with theorems settling the spec claims about its fault-injection engine,
retry controller, scheduler, concurrency limiter and configuration
validation.

Conventions of the embedding:
* Go `float64` percentages and second-valued durations are modelled as `ℚ`
  (all comparisons in the source sit far from the rounding granularity of
  `float64` at these magnitudes, so the threshold logic is unchanged).
* Go `time.Duration` values are carried in seconds as `ℚ`.
* The wall clock reading `time.Now().UnixNano()` is an arbitrary `ℕ`.
* Effects of a handler (metric increments, bytes written, sleeps, the
  forced close of the connection) are recorded in a result structure.
-/

namespace TestBackend

/-- `BackendEndpoint` from `config.go`: how the mock server responds on one
path/method. `delay`, `idleDuration` in seconds; `idleDuration = 0` means
unset. -/
structure BackendEndpoint where
  path : String
  method : String
  statusCode : Nat
  headers : List (String × String)
  body : String
  delay : ℚ
  dropPercent : ℚ
  idlePercent : ℚ
  idleDuration : ℚ
  deriving DecidableEq, Repr

/-- The three-way fault decision of `createHandler` (`backend.go`). -/
inductive FaultDecision where
  | drop
  | idle
  | respond
  deriving DecidableEq, Repr

/-- The random draw of `createHandler` (`backend.go` line 96):
`float64(time.Now().UnixNano()%10000) / 100.0`, for a clock reading `t`. -/
def drawOfClock (t : Nat) : ℚ :=
  ((t % 10000 : Nat) : ℚ) / 100

/-- The branch structure of `createHandler` (`backend.go` lines 94-135):
the fault block runs only when a percentage is positive; inside it, drop
wins below `dropPercent`, idle below `dropPercent + idlePercent`, and the
remaining mass responds normally. -/
def faultDecision (ep : BackendEndpoint) (r : ℚ) : FaultDecision :=
  if 0 < ep.dropPercent ∨ 0 < ep.idlePercent then
    if r < ep.dropPercent then FaultDecision.drop
    else if r < ep.dropPercent + ep.idlePercent then FaultDecision.idle
    else FaultDecision.respond
  else FaultDecision.respond

/-- `endpoint.IdleDuration`, defaulted to 30 seconds when unset
(`backend.go` lines 115-118). -/
def resolvedIdleDuration (ep : BackendEndpoint) : ℚ :=
  if ep.idleDuration = 0 then 30 else ep.idleDuration

/-- Observable effects of one invocation of the handler built by
`createHandler`: which decision was taken, what was written, which metrics
moved, how long the handling goroutine slept, and whether the raw
connection was force-closed (the Connection Terminator). -/
structure HandlerResult where
  decision : FaultDecision
  /-- response bytes written to the client -/
  bytesWritten : Nat
  /-- status code written via `WriteHeader`, if any -/
  status : Option Nat
  /-- headers set on the response, if any -/
  headersSet : List (String × String)
  /-- increments of `BackendDroppedTotal` -/
  droppedInc : Nat
  /-- increments of `BackendIdledTotal` -/
  idledInc : Nat
  /-- observation pushed to `BackendIdleDuration`, seconds -/
  idleDurationObs : Option ℚ
  /-- increments of `BackendRequestsTotal` -/
  requestsTotalInc : Nat
  /-- observation pushed to `BackendResponseSize`, bytes -/
  responseSizeObs : Option Nat
  /-- total synchronous sleep of the handling goroutine, seconds -/
  sleepSeconds : ℚ
  /-- whether the `w.(http.Hijacker)` assertion succeeded and the
  underlying connection was closed via `conn.Close()` -/
  terminatorInvoked : Bool
  deriving DecidableEq, Repr

/-- Whether the writer a handler receives supports connection takeover —
the `ok` of the `w.(http.Hijacker)` type assertions in the drop
(`backend.go` line 104) and idle (`backend.go` line 126) branches.  In
this program `Run` installs `b.loggingMiddleware(mux)` (`backend.go` line
45), and `loggingMiddleware` hands every handler the wrapper
`&responseWriter{ResponseWriter: w, ...}` (`backend.go` line 189); the
`responseWriter` struct (`backend.go` lines 201-209) embeds only the
`http.ResponseWriter` interface, so its method set is `Header`, `Write`,
`WriteHeader` — no `Hijack` is promoted and the assertion always fails.
Both fault branches then take their silent-return fallback without
closing, and net/http later writes a default 200 response on the
still-open connection. -/
def responseWriterHasHijack : Bool := false

/-- The handler body built by `createHandler` (`backend.go` lines 89-168),
as a function of the endpoint, whether the writer it received supports
hijacking (`hijackable`, the outcome of the `w.(http.Hijacker)`
assertion), and the random draw `r`.  The drop branch writes nothing,
bumps only the drop counter, and closes the connection exactly when the
writer is hijackable (otherwise its fallback silently returns); the idle
branch records idle count and duration, sleeps the resolved idle duration,
then attempts the identical hijack-and-close; the respond branch sleeps
the configured delay, writes headers, status and body, and bumps the
request metrics. -/
def createHandler (ep : BackendEndpoint) (hijackable : Bool) (r : ℚ) :
    HandlerResult :=
  match faultDecision ep r with
  | FaultDecision.drop =>
      { decision := FaultDecision.drop
        bytesWritten := 0
        status := none
        headersSet := []
        droppedInc := 1
        idledInc := 0
        idleDurationObs := none
        requestsTotalInc := 0
        responseSizeObs := none
        sleepSeconds := 0
        terminatorInvoked := hijackable }
  | FaultDecision.idle =>
      { decision := FaultDecision.idle
        bytesWritten := 0
        status := none
        headersSet := []
        droppedInc := 0
        idledInc := 1
        idleDurationObs := some (resolvedIdleDuration ep)
        requestsTotalInc := 0
        responseSizeObs := none
        sleepSeconds := resolvedIdleDuration ep
        terminatorInvoked := hijackable }
  | FaultDecision.respond =>
      { decision := FaultDecision.respond
        bytesWritten := ep.body.length
        status := some ep.statusCode
        headersSet := ep.headers
        droppedInc := 0
        idledInc := 0
        idleDurationObs := none
        requestsTotalInc := 1
        responseSizeObs := if ep.body ≠ "" then some ep.body.length else none
        sleepSeconds := if 0 < ep.delay then ep.delay else 0
        terminatorInvoked := false }

/-- Outcome of routing one inbound request: either the early 405 error of
the method check, or the full handler run. -/
inductive RequestOutcome where
  | error (status : Nat)
  | handled (res : HandlerResult)
  deriving DecidableEq, Repr

/-- The closure installed by `registerEndpoint` (`backend.go` lines 78-85)
as it runs in this program: a method mismatch answers 405 and returns
before the handler runs; otherwise the `createHandler` body runs on the
draw `r`.  The writer is the `loggingMiddleware` wrapper on every request
(`backend.go` line 45), hence never hijackable
(`responseWriterHasHijack`). -/
def registerEndpoint (ep : BackendEndpoint) (reqMethod : String) (r : ℚ) :
    RequestOutcome :=
  if reqMethod ≠ ep.method then RequestOutcome.error 405
  else RequestOutcome.handled (createHandler ep responseWriterHasHijack r)

/-! ## Probe (client) side: executor, retry controller, scheduler, limiter -/

/-- `EndpointConfig` from `config.go`: one probe target.  `retries` is the
retry budget; `requestsPerSecond` is the optional per-endpoint rate (0 when
absent). -/
structure EndpointConfig where
  name : String
  url : String
  method : String
  headers : List (String × String)
  body : String
  retries : Nat
  requestsPerSecond : ℚ
  deriving DecidableEq, Repr

/-- What the network does on one attempt of `executeRequest`
(`backend.go` client half, lines 358-485): the exchange either fails at
the transport (`c.client.Do` error), fails while reading the response body
(`io.ReadAll` error), or completes with some status code. -/
inductive ExchangeOutcome where
  | connError
  | bodyReadError
  | completed (status : Nat)
  deriving DecidableEq, Repr

/-- A transport-level failure in the sense of the Retry Controller: a
connection error or a response-body-read error. -/
def IsTransportFailure (o : ExchangeOutcome) : Prop :=
  o = ExchangeOutcome.connError ∨ o = ExchangeOutcome.bodyReadError

instance (o : ExchangeOutcome) : Decidable (IsTransportFailure o) := by
  unfold IsTransportFailure; infer_instance

/-- `executeRequest` (`backend.go` client half): returns an error exactly
on the two transport failures; a completed exchange returns its status
code unconditionally — no status is treated as failure. -/
def executeRequest (o : ExchangeOutcome) : Except String Nat :=
  match o with
  | ExchangeOutcome.connError => Except.error "request failed"
  | ExchangeOutcome.bodyReadError => Except.error "failed to read response body"
  | ExchangeOutcome.completed status => Except.ok status

/-- Trace of one dispatched unit through `makeRequest`: how many attempts
ran, the backoff sleeps (seconds, in order) between them, and how often
the `ClientRetries` counter moved. -/
structure RetryTrace where
  attempts : Nat
  sleeps : List Nat
  retryIncs : Nat
  deriving DecidableEq, Repr

/-- The loop of `makeRequest` (`backend.go` client half, lines 331-355),
driven by the countdown `rem = maxAttempts - attempts` (the loop guard
`attempts < maxAttempts` holds exactly when `0 < rem`).  Attempt number
`attempts + 1` runs `executeRequest` on `outcome (attempts + 1)`; on
failure the retry counter moves when the attempt is not the first, and if
attempts remain the unit sleeps `attempts + 1` seconds and loops; success
breaks immediately. -/
def makeRequestAux (outcome : Nat → ExchangeOutcome) :
    Nat → Nat → List Nat → Nat → RetryTrace
  | 0, attempts, sleeps, retryIncs =>
      { attempts := attempts, sleeps := sleeps, retryIncs := retryIncs }
  | rem + 1, attempts, sleeps, retryIncs =>
      let a := attempts + 1
      match executeRequest (outcome a) with
      | Except.error _ =>
          let r := if 1 < a then retryIncs + 1 else retryIncs
          if 0 < rem then
            makeRequestAux outcome rem a (sleeps ++ [a]) r
          else
            { attempts := a, sleeps := sleeps, retryIncs := r }
      | Except.ok _ =>
          { attempts := a, sleeps := sleeps, retryIncs := retryIncs }

/-- `makeRequest` (`backend.go` client half): attempt budget
`maxAttempts = retries + 1`, starting from zero attempts. -/
def makeRequest (outcome : Nat → ExchangeOutcome) (retries : Nat) :
    RetryTrace :=
  makeRequestAux outcome (retries + 1) 0 [] 0

/-- Tick instants of a `time.Ticker` with the given period (seconds): the
first tick fires one full period after start, never at time 0. -/
def tickTimes (period : ℚ) (n : Nat) : List ℚ :=
  (List.range n).map (fun i : Nat => period * ((i : ℚ) + 1))

/-- Dispatch instants of `runEndpoint` (`backend.go` client half, lines
281-327) over the first `n` ticks.  With `requestsPerSecond > 0` the
stream dispatches only on ticks of period `1/rate`; otherwise it uses the
shared interval and additionally dispatches once immediately at start. -/
def runEndpointDispatches (rate interval : ℚ) (n : Nat) : List ℚ :=
  if 0 < rate then tickTimes (1 / rate) n
  else 0 :: tickTimes interval n

/-! The concurrency limiter of `runEndpoint` (`backend.go` client half,
lines 260-279): a buffered channel of capacity `MaxConcurrentRequests`
created only when that maximum is positive.  Each dispatched unit sends
into the channel before executing and receives after; the scheduler itself
only launches the unit and never touches the channel.  We model this as a
transition system whose state counts launched units and in-flight slot
holders; a step that would block is disabled (`none`). -/

/-- Whether `runEndpoint` creates the semaphore at all:
`if c.config.MaxConcurrentRequests > 0`. -/
def hasGate (maxConcurrent : Nat) : Bool :=
  decide (0 < maxConcurrent)

/-- Limiter-relevant state of one endpoint stream: units launched by the
scheduler so far, and units currently holding a semaphore slot. -/
structure LimiterState where
  launched : Nat
  inFlight : Nat
  deriving DecidableEq, Repr

/-- Events of the limiter model: the scheduler fires `dispatch`
(fire-and-forget launch); a launched unit fires `acquire` before
`makeRequest` and `release` after. -/
inductive LimiterEvent where
  | dispatch
  | acquire
  | release
  deriving DecidableEq, Repr

/-- One step of the limiter model with configured maximum `maxConcurrent`.
`dispatch` is always enabled — the scheduler never blocks on the
semaphore.  `acquire` is the channel send: when the gate exists it blocks
(is disabled) while `maxConcurrent` slots are held; without a gate it
always proceeds.  `release` is the channel receive by a slot holder. -/
def limiterStep (maxConcurrent : Nat) (s : LimiterState) :
    LimiterEvent → Option LimiterState
  | LimiterEvent.dispatch => some { s with launched := s.launched + 1 }
  | LimiterEvent.acquire =>
      if hasGate maxConcurrent then
        if s.inFlight < maxConcurrent then
          some { s with inFlight := s.inFlight + 1 }
        else none
      else some { s with inFlight := s.inFlight + 1 }
  | LimiterEvent.release =>
      if 0 < s.inFlight then some { s with inFlight := s.inFlight - 1 }
      else none

/-- Run a sequence of limiter events from a state; `none` when some event
was disabled at its turn. -/
def limiterRun (maxConcurrent : Nat) (s : LimiterState) :
    List LimiterEvent → Option LimiterState
  | [] => some s
  | e :: es =>
      match limiterStep maxConcurrent s e with
      | some s' => limiterRun maxConcurrent s' es
      | none => none

/-- Initial state of one endpoint stream: nothing launched, nothing in
flight. -/
def limiterInit : LimiterState := { launched := 0, inFlight := 0 }

/-! ## Configuration validation (`config.go`, `validateConfig`) -/

/-- The method/status defaulting of the backend loop of `validateConfig`
(`config.go` lines 123-128), preceding the percentage checks. -/
def applyMockDefaults (ep : BackendEndpoint) : BackendEndpoint :=
  let ep1 := if ep.method = "" then { ep with method := "GET" } else ep
  if ep1.statusCode = 0 then { ep1 with statusCode := 200 } else ep1

/-- The per-endpoint body of the backend loop of `validateConfig`
(`config.go` lines 119-143): required path, the method/status defaults of
`applyMockDefaults`, the three percentage checks, and the idle-duration
default.  Returns the endpoint with defaults applied, or the first
error. -/
def validateBackendEndpoint (ep : BackendEndpoint) :
    Except String BackendEndpoint :=
  if ep.path = "" then Except.error "path is required"
  else
    let ep2 := applyMockDefaults ep
    if ep2.dropPercent < 0 ∨ 100 < ep2.dropPercent then
      Except.error "drop_percent must be between 0 and 100"
    else if ep2.idlePercent < 0 ∨ 100 < ep2.idlePercent then
      Except.error "idle_percent must be between 0 and 100"
    else if 100 < ep2.dropPercent + ep2.idlePercent then
      Except.error "drop_percent + idle_percent cannot exceed 100"
    else if 0 < ep2.idlePercent ∧ ep2.idleDuration = 0 then
      Except.ok { ep2 with idleDuration := 30 }
    else Except.ok ep2

/-- The backend-endpoint loop of `validateConfig`: every endpoint must
pass `validateBackendEndpoint`; the first failing endpoint aborts
validation (and hence `LoadConfig` fails before any engine starts). -/
def validateBackendEndpoints :
    List BackendEndpoint → Except String (List BackendEndpoint)
  | [] => Except.ok []
  | ep :: eps =>
      match validateBackendEndpoint ep with
      | Except.error e => Except.error e
      | Except.ok ep' =>
          match validateBackendEndpoints eps with
          | Except.error e => Except.error e
          | Except.ok eps' => Except.ok (ep' :: eps')

/-! ## Concrete endpoints used in instantiations -/

/-- A mixed fault endpoint: 50% drop, 30% idle. -/
def epMixed : BackendEndpoint :=
  { path := "/mixed", method := "GET", statusCode := 200, headers := []
    body := "OK", delay := 0, dropPercent := 50, idlePercent := 30
    idleDuration := 2 }

/-- An endpoint that drops every connection. -/
def epDrop : BackendEndpoint :=
  { path := "/drop", method := "GET", statusCode := 200, headers := []
    body := "OK", delay := 0, dropPercent := 100, idlePercent := 0
    idleDuration := 0 }

/-- An endpoint that idles every connection, with the idle duration left
unset. -/
def epIdle : BackendEndpoint :=
  { path := "/idle", method := "GET", statusCode := 200, headers := []
    body := "OK", delay := 0, dropPercent := 0, idlePercent := 100
    idleDuration := 0 }

/-- A fault-free endpoint. -/
def epPlain : BackendEndpoint :=
  { path := "/health", method := "GET", statusCode := 200, headers := []
    body := "OK", delay := 0, dropPercent := 0, idlePercent := 0
    idleDuration := 0 }

/-- An attempt pattern in which the first two attempts fail at the
transport and every later attempt completes with status 503. -/
def sampleOutcome : Nat → ExchangeOutcome
  | 1 => ExchangeOutcome.connError
  | 2 => ExchangeOutcome.bodyReadError
  | _ => ExchangeOutcome.completed 503

/-- An endpoint whose percentages sum to 120, past the allowed 100. -/
def epBadSum : BackendEndpoint :=
  { path := "/bad", method := "GET", statusCode := 200, headers := []
    body := "", delay := 0, dropPercent := 60, idlePercent := 60
    idleDuration := 0 }

/-! ## Helper lemmas -/

theorem drawOfClock_nonneg (t : Nat) : 0 ≤ drawOfClock t := by
  unfold drawOfClock
  positivity

theorem drawOfClock_le (t : Nat) : drawOfClock t ≤ 9999 / 100 := by
  unfold drawOfClock
  have h1 : t % 10000 ≤ 9999 := by
    have := Nat.mod_lt t (show 0 < 10000 by norm_num)
    omega
  have h2 : ((t % 10000 : Nat) : ℚ) ≤ 9999 := by exact_mod_cast h1
  linarith

theorem drawOfClock_lt_100 (t : Nat) : drawOfClock t < 100 := by
  have := drawOfClock_le t
  linarith

theorem faultDecision_drop_of_100 (ep : BackendEndpoint) (t : Nat)
    (h : ep.dropPercent = 100) :
    faultDecision ep (drawOfClock t) = FaultDecision.drop := by
  unfold faultDecision
  rw [if_pos (Or.inl (by rw [h]; norm_num))]
  rw [if_pos (by rw [h]; exact drawOfClock_lt_100 t)]

/-! ## Claim theorems -/

/-- C1: for every inbound request to a MockEndpoint whose method matches
and whose dropProbability or idleProbability is positive, one value `r` in
`[0, 100)` is drawn and the decision is: drop if `r < dropProbability`,
else idle if `r < dropProbability + idleProbability`, else respond;
exactly one of the three outcomes occurs per request (the three
characterisations below are mutually exclusive and exhaustive). -/
theorem c1_fault_decision_threeway (ep : BackendEndpoint) (t : Nat)
    (hpos : 0 < ep.dropPercent ∨ 0 < ep.idlePercent) :
    0 ≤ drawOfClock t ∧ drawOfClock t < 100 ∧
    (faultDecision ep (drawOfClock t) = FaultDecision.drop ↔
       drawOfClock t < ep.dropPercent) ∧
    (faultDecision ep (drawOfClock t) = FaultDecision.idle ↔
       ¬ drawOfClock t < ep.dropPercent ∧
         drawOfClock t < ep.dropPercent + ep.idlePercent) ∧
    (faultDecision ep (drawOfClock t) = FaultDecision.respond ↔
       ¬ drawOfClock t < ep.dropPercent ∧
         ¬ drawOfClock t < ep.dropPercent + ep.idlePercent) := by
  refine ⟨drawOfClock_nonneg t, drawOfClock_lt_100 t, ?_, ?_, ?_⟩ <;>
    · unfold faultDecision
      rw [if_pos hpos]
      split_ifs with h1 h2 <;> simp_all

/-- Instantiation of `c1_fault_decision_threeway` at the 50/30 endpoint
and clock reading 1234 (draw 12.34). -/
theorem c1_fault_decision_threeway_witness :
    (0 < epMixed.dropPercent ∨ 0 < epMixed.idlePercent) ∧
    (0 ≤ drawOfClock 1234 ∧ drawOfClock 1234 < 100 ∧
     (faultDecision epMixed (drawOfClock 1234) = FaultDecision.drop ↔
        drawOfClock 1234 < epMixed.dropPercent) ∧
     (faultDecision epMixed (drawOfClock 1234) = FaultDecision.idle ↔
        ¬ drawOfClock 1234 < epMixed.dropPercent ∧
          drawOfClock 1234 < epMixed.dropPercent + epMixed.idlePercent) ∧
     (faultDecision epMixed (drawOfClock 1234) = FaultDecision.respond ↔
        ¬ drawOfClock 1234 < epMixed.dropPercent ∧
          ¬ drawOfClock 1234 < epMixed.dropPercent + epMixed.idlePercent)) :=
  ⟨Or.inl (by norm_num [epMixed]),
   c1_fault_decision_threeway epMixed 1234 (Or.inl (by norm_num [epMixed]))⟩

/-- C10: for every clock reading `t`, the fault-decision draw
`float64(t mod 10000)/100.0` lies in `[0, 99.99]` — strictly below 100
and at least 0 — so drop is certain when dropProbability = 100 and respond
is certain when dropProbability + idleProbability = 0. -/
theorem c10_draw_range_and_certainty (t : Nat) (ep epz : BackendEndpoint)
    (hdrop : ep.dropPercent = 100)
    (hz0 : 0 ≤ epz.dropPercent) (hz1 : 0 ≤ epz.idlePercent)
    (hzsum : epz.dropPercent + epz.idlePercent = 0) :
    0 ≤ drawOfClock t ∧ drawOfClock t ≤ 9999 / 100 ∧ drawOfClock t < 100 ∧
    faultDecision ep (drawOfClock t) = FaultDecision.drop ∧
    faultDecision epz (drawOfClock t) = FaultDecision.respond := by
  have hd0 : epz.dropPercent = 0 := by linarith
  have hi0 : epz.idlePercent = 0 := by linarith
  refine ⟨drawOfClock_nonneg t, drawOfClock_le t, drawOfClock_lt_100 t,
    faultDecision_drop_of_100 ep t hdrop, ?_⟩
  simp [faultDecision, hd0, hi0]

/-- Instantiation of `c10_draw_range_and_certainty` at the always-drop
endpoint, the fault-free endpoint and clock reading 9999 (draw 99.99). -/
theorem c10_draw_range_and_certainty_witness :
    epDrop.dropPercent = 100 ∧
    (0 ≤ epPlain.dropPercent ∧ 0 ≤ epPlain.idlePercent ∧
     epPlain.dropPercent + epPlain.idlePercent = 0) ∧
    (0 ≤ drawOfClock 9999 ∧ drawOfClock 9999 ≤ 9999 / 100 ∧
     drawOfClock 9999 < 100 ∧
     faultDecision epDrop (drawOfClock 9999) = FaultDecision.drop ∧
     faultDecision epPlain (drawOfClock 9999) = FaultDecision.respond) :=
  ⟨by norm_num [epDrop],
   ⟨by norm_num [epPlain], by norm_num [epPlain], by norm_num [epPlain]⟩,
   c10_draw_range_and_certainty 9999 epDrop epPlain
     (by norm_num [epDrop]) (by norm_num [epPlain]) (by norm_num [epPlain])
     (by norm_num [epPlain])⟩

/-- C3 is the code's intent but not its behavior: for every request to a
MockEndpoint with dropProbability = 100 whose method matches, the drop
branch is taken, the handler writes zero bytes, the drop counter
increments exactly once and the request-total counter never increments —
but the connection is NOT closed: the handler runs behind
`loggingMiddleware`, whose `responseWriter` wrapper has no `Hijack`
method, so the `w.(http.Hijacker)` assertion fails, the fallback silently
returns, and net/http writes a default 200 on the open connection,
contrary to the drop branch's own comments and log message. -/
theorem c3_drop_branch_never_closes (ep : BackendEndpoint) (t : Nat)
    (hdrop : ep.dropPercent = 100) :
    registerEndpoint ep ep.method (drawOfClock t)
      = RequestOutcome.handled
          (createHandler ep responseWriterHasHijack (drawOfClock t)) ∧
    (createHandler ep responseWriterHasHijack (drawOfClock t)).decision
      = FaultDecision.drop ∧
    (createHandler ep responseWriterHasHijack (drawOfClock t)).bytesWritten
      = 0 ∧
    (createHandler ep responseWriterHasHijack (drawOfClock t)).droppedInc
      = 1 ∧
    (createHandler ep responseWriterHasHijack
        (drawOfClock t)).requestsTotalInc = 0 ∧
    (createHandler ep responseWriterHasHijack
        (drawOfClock t)).terminatorInvoked = false := by
  have hdec := faultDecision_drop_of_100 ep t hdrop
  refine ⟨by simp [registerEndpoint], ?_, ?_, ?_, ?_, ?_⟩ <;>
    simp [createHandler, hdec, responseWriterHasHijack]

/-- Instantiation of `c3_drop_branch_never_closes` at the always-drop
endpoint and clock reading 0. -/
theorem c3_drop_branch_never_closes_witness :
    epDrop.dropPercent = 100 ∧
    (registerEndpoint epDrop epDrop.method (drawOfClock 0)
       = RequestOutcome.handled
           (createHandler epDrop responseWriterHasHijack (drawOfClock 0)) ∧
     (createHandler epDrop responseWriterHasHijack (drawOfClock 0)).decision
       = FaultDecision.drop ∧
     (createHandler epDrop responseWriterHasHijack
         (drawOfClock 0)).bytesWritten = 0 ∧
     (createHandler epDrop responseWriterHasHijack
         (drawOfClock 0)).droppedInc = 1 ∧
     (createHandler epDrop responseWriterHasHijack
         (drawOfClock 0)).requestsTotalInc = 0 ∧
     (createHandler epDrop responseWriterHasHijack
         (drawOfClock 0)).terminatorInvoked = false) :=
  ⟨by norm_num [epDrop],
   c3_drop_branch_never_closes epDrop 0 (by norm_num [epDrop])⟩

/-- C6 is the code's intent but not its behavior: for every request whose
fault decision is idle, the handler emits one idle-count observation and
one idle-duration observation equal to the resolved idle duration and
holds the handling unit synchronously for that duration (30 seconds when
the configured duration is unset), and afterwards runs the same
hijack-and-close attempt as the drop path and writes nothing — but the
Connection Terminator never actually closes the connection: through the
`loggingMiddleware` wrapper the writer is not hijackable, so
`terminatorInvoked = false` (as on the drop path, which fails
identically), contrary to the idle branch's comment "After idle, close
without response" and the spec's "before the connection closes". -/
theorem c6_idle_path_never_closes (ep : BackendEndpoint) (r : ℚ)
    (hidle : faultDecision ep r = FaultDecision.idle) :
    (createHandler ep responseWriterHasHijack r).idledInc = 1 ∧
    (createHandler ep responseWriterHasHijack r).idleDurationObs
      = some (resolvedIdleDuration ep) ∧
    (createHandler ep responseWriterHasHijack r).sleepSeconds
      = resolvedIdleDuration ep ∧
    resolvedIdleDuration ep
      = (if ep.idleDuration = 0 then 30 else ep.idleDuration) ∧
    (createHandler ep responseWriterHasHijack r).bytesWritten
      = (createHandler epDrop responseWriterHasHijack 0).bytesWritten ∧
    (createHandler ep responseWriterHasHijack r).status
      = (createHandler epDrop responseWriterHasHijack 0).status ∧
    (createHandler ep responseWriterHasHijack r).terminatorInvoked
      = (createHandler epDrop responseWriterHasHijack 0).terminatorInvoked ∧
    (createHandler ep responseWriterHasHijack r).terminatorInvoked
      = false := by
  have hdropEp : faultDecision epDrop 0 = FaultDecision.drop := by
    unfold faultDecision
    rw [if_pos (Or.inl (by norm_num [epDrop]))]
    rw [if_pos (by norm_num [epDrop])]
  refine ⟨?_, ?_, ?_, rfl, ?_, ?_, ?_, ?_⟩ <;>
    simp [createHandler, hidle, hdropEp, resolvedIdleDuration,
      responseWriterHasHijack]

/-- Instantiation of `c6_idle_path_never_closes` at the always-idle
endpoint (idle duration unset, hence resolved to 30s) and draw 50. -/
theorem c6_idle_path_never_closes_witness :
    faultDecision epIdle 50 = FaultDecision.idle ∧
    ((createHandler epIdle responseWriterHasHijack 50).idledInc = 1 ∧
     (createHandler epIdle responseWriterHasHijack 50).idleDurationObs
       = some (resolvedIdleDuration epIdle) ∧
     (createHandler epIdle responseWriterHasHijack 50).sleepSeconds
       = resolvedIdleDuration epIdle ∧
     resolvedIdleDuration epIdle
       = (if epIdle.idleDuration = 0 then 30 else epIdle.idleDuration) ∧
     (createHandler epIdle responseWriterHasHijack 50).bytesWritten
       = (createHandler epDrop responseWriterHasHijack 0).bytesWritten ∧
     (createHandler epIdle responseWriterHasHijack 50).status
       = (createHandler epDrop responseWriterHasHijack 0).status ∧
     (createHandler epIdle responseWriterHasHijack 50).terminatorInvoked
       = (createHandler epDrop responseWriterHasHijack 0).terminatorInvoked ∧
     (createHandler epIdle responseWriterHasHijack 50).terminatorInvoked
       = false) :=
  ⟨by unfold faultDecision; norm_num [epIdle],
   c6_idle_path_never_closes epIdle 50
     (by unfold faultDecision; norm_num [epIdle])⟩

/-- C7: for every inbound request to a MockEndpoint whose HTTP method does
not match the configured method, the response is status 405 and the fault
logic (draw, drop, idle, delay, configured status/headers/body, fault
metrics) is bypassed entirely: the outcome is the bare 405 error, not a
handler run. -/
theorem c7_method_mismatch (ep : BackendEndpoint) (m : String) (r : ℚ)
    (hm : m ≠ ep.method) :
    registerEndpoint ep m r = RequestOutcome.error 405 ∧
    ∀ res : HandlerResult, registerEndpoint ep m r ≠ RequestOutcome.handled res := by
  constructor
  · simp [registerEndpoint, hm]
  · intro res
    simp [registerEndpoint, hm]

/-- Instantiation of `c7_method_mismatch`: a POST against the GET-only
health endpoint. -/
theorem c7_method_mismatch_witness :
    "POST" ≠ epPlain.method ∧
    (registerEndpoint epPlain "POST" 0 = RequestOutcome.error 405 ∧
     ∀ res : HandlerResult,
       registerEndpoint epPlain "POST" 0 ≠ RequestOutcome.handled res) :=
  ⟨by simp [epPlain], c7_method_mismatch epPlain "POST" 0 (by simp [epPlain])⟩

theorem applyMockDefaults_dropPercent (ep : BackendEndpoint) :
    (applyMockDefaults ep).dropPercent = ep.dropPercent := by
  simp only [applyMockDefaults]
  split_ifs <;> rfl

theorem applyMockDefaults_idlePercent (ep : BackendEndpoint) :
    (applyMockDefaults ep).idlePercent = ep.idlePercent := by
  simp only [applyMockDefaults]
  split_ifs <;> rfl

theorem validateBackendEndpoint_error_of_bad (ep : BackendEndpoint)
    (hbad : ep.dropPercent < 0 ∨ 100 < ep.dropPercent ∨
            ep.idlePercent < 0 ∨ 100 < ep.idlePercent ∨
            100 < ep.dropPercent + ep.idlePercent) :
    ∃ msg, validateBackendEndpoint ep = Except.error msg := by
  unfold validateBackendEndpoint
  by_cases hp : ep.path = ""
  · rw [if_pos hp]
    exact ⟨_, rfl⟩
  · rw [if_neg hp]
    simp only [applyMockDefaults_dropPercent, applyMockDefaults_idlePercent]
    split_ifs with h1 h2 h3 <;> try exact ⟨_, rfl⟩
    all_goals
      exfalso
      rcases hbad with h | h | h | h | h <;> simp_all

theorem validateBackendEndpoints_error_of_mem (eps : List BackendEndpoint)
    (ep : BackendEndpoint) (hmem : ep ∈ eps)
    (herr : ∃ msg, validateBackendEndpoint ep = Except.error msg) :
    ∃ msg, validateBackendEndpoints eps = Except.error msg := by
  induction eps with
  | nil => cases hmem
  | cons head tail ih =>
      rcases List.mem_cons.mp hmem with heq | htail
      · subst heq
        obtain ⟨msg, hmsg⟩ := herr
        exact ⟨msg, by simp [validateBackendEndpoints, hmsg]⟩
      · obtain ⟨msg, hmsg⟩ := ih htail
        unfold validateBackendEndpoints
        cases hv : validateBackendEndpoint head with
        | error e => exact ⟨e, rfl⟩
        | ok head' => exact ⟨msg, by simp [hmsg]⟩

/-- C9: configuration validation rejects (returns an error for) every
MockEndpoint list containing an endpoint whose dropProbability +
idleProbability exceeds 100 or whose percentages lie outside `[0, 100]`;
`LoadConfig` therefore fails before any engine starts. -/
theorem c9_validation_rejects (eps : List BackendEndpoint)
    (ep : BackendEndpoint) (hmem : ep ∈ eps)
    (hbad : ep.dropPercent < 0 ∨ 100 < ep.dropPercent ∨
            ep.idlePercent < 0 ∨ 100 < ep.idlePercent ∨
            100 < ep.dropPercent + ep.idlePercent) :
    ∃ msg, validateBackendEndpoints eps = Except.error msg :=
  validateBackendEndpoints_error_of_mem eps ep hmem
    (validateBackendEndpoint_error_of_bad ep hbad)

/-- Instantiation of `c9_validation_rejects` on a one-endpoint list whose
percentages sum to 120. -/
theorem c9_validation_rejects_witness :
    epBadSum ∈ [epBadSum] ∧
    (epBadSum.dropPercent < 0 ∨ 100 < epBadSum.dropPercent ∨
     epBadSum.idlePercent < 0 ∨ 100 < epBadSum.idlePercent ∨
     100 < epBadSum.dropPercent + epBadSum.idlePercent) ∧
    ∃ msg, validateBackendEndpoints [epBadSum] = Except.error msg :=
  ⟨List.mem_singleton.mpr rfl,
   Or.inr (Or.inr (Or.inr (Or.inr (by norm_num [epBadSum])))),
   c9_validation_rejects [epBadSum] epBadSum (List.mem_singleton.mpr rfl)
     (Or.inr (Or.inr (Or.inr (Or.inr (by norm_num [epBadSum])))))⟩

theorem executeRequest_error_of_transportFailure (o : ExchangeOutcome)
    (h : IsTransportFailure o) :
    ∃ e, executeRequest o = Except.error e := by
  rcases h with h | h <;> subst h <;> exact ⟨_, rfl⟩

theorem executeRequest_error_iff (o : ExchangeOutcome) :
    (∃ e, executeRequest o = Except.error e) ↔ IsTransportFailure o := by
  cases o <;> simp [executeRequest, IsTransportFailure]

theorem makeRequestAux_succ_error (outcome : Nat → ExchangeOutcome)
    (m attempts : Nat) (sleeps : List Nat) (r : Nat) (e : String)
    (he : executeRequest (outcome (attempts + 1)) = Except.error e) :
    makeRequestAux outcome (m + 1) attempts sleeps r =
      if 0 < m then
        makeRequestAux outcome m (attempts + 1) (sleeps ++ [attempts + 1])
          (if 1 < attempts + 1 then r + 1 else r)
      else { attempts := attempts + 1, sleeps := sleeps,
             retryIncs := if 1 < attempts + 1 then r + 1 else r } := by
  simp only [makeRequestAux]
  rw [he]

theorem makeRequestAux_succ_ok (outcome : Nat → ExchangeOutcome)
    (m attempts : Nat) (sleeps : List Nat) (r v : Nat)
    (hv : executeRequest (outcome (attempts + 1)) = Except.ok v) :
    makeRequestAux outcome (m + 1) attempts sleeps r =
      { attempts := attempts + 1, sleeps := sleeps, retryIncs := r } := by
  simp only [makeRequestAux]
  rw [hv]

theorem makeRequestAux_allFail (outcome : Nat → ExchangeOutcome) :
    ∀ (rem attempts : Nat) (sleeps : List Nat) (r : Nat),
      0 < rem →
      (∀ k, attempts < k → k ≤ attempts + rem → IsTransportFailure (outcome k)) →
      (makeRequestAux outcome rem attempts sleeps r).attempts = attempts + rem ∧
      (makeRequestAux outcome rem attempts sleeps r).sleeps
        = sleeps ++ (List.range (rem - 1)).map (fun i => attempts + 1 + i) := by
  intro rem
  induction rem with
  | zero => intro attempts sleeps r h; omega
  | succ m ih =>
      intro attempts sleeps r _ hfail
      have hfa : IsTransportFailure (outcome (attempts + 1)) :=
        hfail (attempts + 1) (by omega) (by omega)
      obtain ⟨e, he⟩ := executeRequest_error_of_transportFailure _ hfa
      rw [makeRequestAux_succ_error outcome m attempts sleeps r e he]
      by_cases hm : 0 < m
      · rw [if_pos hm]
        have hfail' : ∀ k, attempts + 1 < k → k ≤ attempts + 1 + m →
            IsTransportFailure (outcome k) := by
          intro k hk1 hk2
          exact hfail k (by omega) (by omega)
        obtain ⟨ha, hs⟩ := ih (attempts + 1) (sleeps ++ [attempts + 1]) _ hm hfail'
        constructor
        · rw [ha]; omega
        · rw [hs]
          obtain ⟨m', rfl⟩ : ∃ m', m = m' + 1 := ⟨m - 1, by omega⟩
          simp only [Nat.add_sub_cancel]
          rw [List.append_assoc]
          congr 1
          rw [List.range_succ_eq_map, List.map_cons, List.map_map,
            List.singleton_append]
          simp only [Nat.add_zero]
          congr 1
          refine List.map_congr_left ?_
          intro i _
          simp only [Function.comp_apply]
          omega
      · rw [if_neg hm]
        have hm0 : m = 0 := by omega
        subst hm0
        exact ⟨rfl, by simp⟩

/-- C2 as frozen is refuted: with retries = N = 2 and every attempt
failing at the transport, the backoff sleeps recorded between the three
attempts are 1s then 2s — the delays run up to N seconds, not to
N − 1 = 1 second as the claimed list "1s, 2s, … (N−1)s" would end. -/
theorem c2_backoff_counterexample :
    (makeRequest (fun _ => ExchangeOutcome.connError) 2).attempts = 3 ∧
    (makeRequest (fun _ => ExchangeOutcome.connError) 2).sleeps = [1, 2] ∧
    (makeRequest (fun _ => ExchangeOutcome.connError) 2).sleeps ≠ [1] := by
  refine ⟨rfl, rfl, by decide⟩

/-- C2 amended: for every dispatched unit on a ProbeEndpoint with
retries = N whose every attempt fails with a transport failure, exactly
N+1 execution attempts occur before giving up, and the backoff delays
between consecutive attempts are 1s, 2s, … Ns — the delay before attempt
k+1 being `attemptIndex` = k seconds. -/
theorem c2_retry_attempts_and_backoff (outcome : Nat → ExchangeOutcome)
    (n : Nat)
    (hfail : ∀ k, 1 ≤ k → k ≤ n + 1 → IsTransportFailure (outcome k)) :
    (makeRequest outcome n).attempts = n + 1 ∧
    (makeRequest outcome n).sleeps
      = (List.range n).map (fun k => k + 1) := by
  have h := makeRequestAux_allFail outcome (n + 1) 0 [] 0 (by omega)
    (fun k hk1 hk2 => hfail k (by omega) (by omega))
  unfold makeRequest
  obtain ⟨ha, hs⟩ := h
  refine ⟨by rw [ha]; omega, ?_⟩
  rw [hs]
  simp only [List.nil_append, Nat.add_sub_cancel]
  congr 1
  funext i
  omega

/-- Instantiation of `c2_retry_attempts_and_backoff` at retries = 2 with
every attempt a connection error. -/
theorem c2_retry_attempts_and_backoff_witness :
    (∀ k, 1 ≤ k → k ≤ 2 + 1 →
       IsTransportFailure ((fun _ => ExchangeOutcome.connError) k)) ∧
    ((makeRequest (fun _ => ExchangeOutcome.connError) 2).attempts = 2 + 1 ∧
     (makeRequest (fun _ => ExchangeOutcome.connError) 2).sleeps
       = (List.range 2).map (fun k => k + 1)) :=
  ⟨fun _ _ _ => Or.inl rfl,
   c2_retry_attempts_and_backoff (fun _ => ExchangeOutcome.connError) 2
     (fun _ _ _ => Or.inl rfl)⟩

theorem makeRequestAux_firstSuccess (outcome : Nat → ExchangeOutcome)
    (k status : Nat)
    (hdone : outcome k = ExchangeOutcome.completed status) :
    ∀ (rem attempts : Nat) (sleeps : List Nat) (r : Nat),
      attempts < k → k ≤ attempts + rem →
      (∀ j, attempts < j → j < k → IsTransportFailure (outcome j)) →
      (makeRequestAux outcome rem attempts sleeps r).attempts = k := by
  intro rem
  induction rem with
  | zero => intro attempts sleeps r h1 h2; omega
  | succ m ih =>
      intro attempts sleeps r hlt hle hfail
      by_cases hk : attempts + 1 = k
      · have hv : executeRequest (outcome (attempts + 1)) = Except.ok status := by
          rw [hk, hdone]
          rfl
        rw [makeRequestAux_succ_ok outcome m attempts sleeps r status hv]
        exact hk
      · have hfa : IsTransportFailure (outcome (attempts + 1)) :=
          hfail (attempts + 1) (by omega) (by omega)
        obtain ⟨e, he⟩ := executeRequest_error_of_transportFailure _ hfa
        rw [makeRequestAux_succ_error outcome m attempts sleeps r e he]
        have hm : 0 < m := by omega
        rw [if_pos hm]
        exact ih (attempts + 1) (sleeps ++ [attempts + 1]) _ (by omega)
          (by omega) (fun j hj1 hj2 => hfail j (by omega) hj2)

/-- C4: for every attempt executed by the Retry Controller, a completed
HTTP exchange with any status code ends the attempt loop immediately as a
success — if the first completed exchange is attempt k, exactly k attempts
run — and only transport-level failures (connection error or
response-body-read error) make `executeRequest` return an error and hence
cause a retry. -/
theorem c4_completed_exchange_ends_loop (outcome : Nat → ExchangeOutcome)
    (n k status : Nat) (hk1 : 1 ≤ k) (hk2 : k ≤ n + 1)
    (hdone : outcome k = ExchangeOutcome.completed status)
    (hfail : ∀ j, 1 ≤ j → j < k → IsTransportFailure (outcome j)) :
    (makeRequest outcome n).attempts = k ∧
    (∀ s, executeRequest (ExchangeOutcome.completed s) = Except.ok s) ∧
    (∀ o, (∃ e, executeRequest o = Except.error e) ↔ IsTransportFailure o) := by
  refine ⟨?_, fun s => rfl, executeRequest_error_iff⟩
  exact makeRequestAux_firstSuccess outcome k status hdone (n + 1) 0 [] 0
    (by omega) (by omega) (fun j hj1 hj2 => hfail j (by omega) hj2)

/-- Instantiation of `c4_completed_exchange_ends_loop`: retries = 5, the
first two attempts fail at the transport, attempt 3 completes with status
503 — the loop stops after 3 attempts despite the error status. -/
theorem c4_completed_exchange_ends_loop_witness :
    (1 ≤ 3 ∧ 3 ≤ 5 + 1 ∧
     sampleOutcome 3 = ExchangeOutcome.completed 503 ∧
     (∀ j, 1 ≤ j → j < 3 → IsTransportFailure (sampleOutcome j))) ∧
    ((makeRequest sampleOutcome 5).attempts = 3 ∧
     (∀ s, executeRequest (ExchangeOutcome.completed s) = Except.ok s) ∧
     (∀ o, (∃ e, executeRequest o = Except.error e) ↔ IsTransportFailure o)) :=
  ⟨⟨by omega, by omega, rfl, fun j h1 h2 => by
      interval_cases j <;> decide⟩,
   c4_completed_exchange_ends_loop sampleOutcome 5 3 503 (by omega) (by omega)
     rfl (fun j h1 h2 => by interval_cases j <;> decide)⟩

/-- C5: for every ProbeEndpoint, if rate > 0 the scheduling stream
dispatches only on ticks of period 1/rate — in particular never at time 0,
i.e. not immediately at start — and otherwise it uses the shared interval,
dispatching immediately at start and then on every subsequent tick. -/
theorem c5_scheduler_cadence (rate interval : ℚ) (n : Nat) :
    (0 < rate →
       runEndpointDispatches rate interval n = tickTimes (1 / rate) n ∧
       ∀ x ∈ runEndpointDispatches rate interval n, 0 < x) ∧
    (¬ 0 < rate →
       (runEndpointDispatches rate interval n).head? = some 0 ∧
       (runEndpointDispatches rate interval n).tail = tickTimes interval n) := by
  constructor
  · intro hrate
    refine ⟨by rw [runEndpointDispatches, if_pos hrate], ?_⟩
    intro x hx
    rw [runEndpointDispatches, if_pos hrate, tickTimes] at hx
    obtain ⟨i, hi, rfl⟩ := List.mem_map.mp hx
    have h1 : 0 < 1 / rate := one_div_pos.mpr hrate
    have h2 : (0 : ℚ) < (i : ℚ) + 1 := by positivity
    exact mul_pos h1 h2
  · intro hrate
    rw [runEndpointDispatches, if_neg hrate]
    exact ⟨rfl, rfl⟩

/-- Instantiation of `c5_scheduler_cadence` at rate 2 (period half a
second, no dispatch at start) and at rate 0 with interval 5 (immediate
dispatch, then ticks). -/
theorem c5_scheduler_cadence_witness :
    (0 : ℚ) < 2 ∧
    (runEndpointDispatches 2 5 3 = tickTimes (1 / 2) 3 ∧
     ∀ x ∈ runEndpointDispatches 2 5 3, 0 < x) ∧
    ¬ (0 : ℚ) < 0 ∧
    ((runEndpointDispatches 0 5 3).head? = some 0 ∧
     (runEndpointDispatches 0 5 3).tail = tickTimes 5 3) :=
  ⟨by norm_num,
   (c5_scheduler_cadence 2 5 3).1 (by norm_num),
   by norm_num,
   (c5_scheduler_cadence 0 5 3).2 (by norm_num)⟩

theorem limiterRun_inFlight_le (maxConcurrent : Nat)
    (hpos : 0 < maxConcurrent) :
    ∀ (evs : List LimiterEvent) (s0 s : LimiterState),
      s0.inFlight ≤ maxConcurrent →
      limiterRun maxConcurrent s0 evs = some s →
      s.inFlight ≤ maxConcurrent := by
  intro evs
  induction evs with
  | nil =>
      intro s0 s hle hrun
      simp only [limiterRun] at hrun
      cases hrun
      exact hle
  | cons e es ih =>
      intro s0 s hle hrun
      simp only [limiterRun] at hrun
      cases e with
      | dispatch =>
          simp only [limiterStep] at hrun
          exact ih { s0 with launched := s0.launched + 1 } s hle hrun
      | acquire =>
          have hg : hasGate maxConcurrent = true := by
            simp only [hasGate, decide_eq_true_eq]
            exact hpos
          simp only [limiterStep] at hrun
          rw [if_pos hg] at hrun
          by_cases hfull : s0.inFlight < maxConcurrent
          · rw [if_pos hfull] at hrun
            exact ih _ s (by simpa using hfull) hrun
          · rw [if_neg hfull] at hrun
            cases hrun
      | release =>
          simp only [limiterStep] at hrun
          by_cases hz : 0 < s0.inFlight
          · rw [if_pos hz] at hrun
            exact ih _ s (by simp; omega) hrun
          · rw [if_neg hz] at hrun
            cases hrun

/-- C8: for every ProbeEndpoint stream with configured maximum K > 0,
never more than K dispatched executions hold a slot at once along any
admissible event sequence; a dispatch step is always enabled (the gate
never delays the scheduler's cadence) while an acquire is disabled exactly
when all K slots are held (excess units block until a slot frees); and
when the configured maximum is zero the gate is absent and every acquire
proceeds unconstrained. -/
theorem c8_concurrency_limiter (maxConcurrent : Nat)
    (evs : List LimiterEvent) (s : LimiterState)
    (hrun : limiterRun maxConcurrent limiterInit evs = some s) :
    (0 < maxConcurrent → s.inFlight ≤ maxConcurrent) ∧
    (∀ s' : LimiterState,
       limiterStep maxConcurrent s' LimiterEvent.dispatch
         = some { s' with launched := s'.launched + 1 }) ∧
    (0 < maxConcurrent → ∀ s' : LimiterState,
       maxConcurrent ≤ s'.inFlight →
       limiterStep maxConcurrent s' LimiterEvent.acquire = none) ∧
    (maxConcurrent = 0 →
       hasGate maxConcurrent = false ∧
       ∀ s' : LimiterState,
         limiterStep maxConcurrent s' LimiterEvent.acquire
           = some { s' with inFlight := s'.inFlight + 1 }) := by
  refine ⟨?_, fun s' => rfl, ?_, ?_⟩
  · intro hpos
    exact limiterRun_inFlight_le maxConcurrent hpos evs limiterInit s
      (by simp [limiterInit]) hrun
  · intro hpos s' hfull
    simp [limiterStep, hasGate, hpos, Nat.not_lt.mpr hfull]
  · intro hz
    subst hz
    exact ⟨rfl, fun s' => by simp [limiterStep, hasGate]⟩

/-- Instantiation of `c8_concurrency_limiter` on a run with maximum 2:
two units acquire, a release frees a slot, a third acquires. -/
theorem c8_concurrency_limiter_witness :
    limiterRun 2 limiterInit
        [LimiterEvent.dispatch, LimiterEvent.acquire,
         LimiterEvent.dispatch, LimiterEvent.acquire,
         LimiterEvent.release, LimiterEvent.dispatch, LimiterEvent.acquire]
      = some { launched := 3, inFlight := 2 } ∧
    ((0 < 2 → ({ launched := 3, inFlight := 2 } : LimiterState).inFlight ≤ 2) ∧
     (∀ s' : LimiterState,
        limiterStep 2 s' LimiterEvent.dispatch
          = some { s' with launched := s'.launched + 1 }) ∧
     (0 < 2 → ∀ s' : LimiterState,
        2 ≤ s'.inFlight →
        limiterStep 2 s' LimiterEvent.acquire = none) ∧
     (2 = 0 →
        hasGate 2 = false ∧
        ∀ s' : LimiterState,
          limiterStep 2 s' LimiterEvent.acquire
            = some { s' with inFlight := s'.inFlight + 1 })) :=
  ⟨by decide,
   c8_concurrency_limiter 2
     [LimiterEvent.dispatch, LimiterEvent.acquire,
      LimiterEvent.dispatch, LimiterEvent.acquire,
      LimiterEvent.release, LimiterEvent.dispatch, LimiterEvent.acquire]
     { launched := 3, inFlight := 2 } (by decide)⟩

end TestBackend
